import Mathlib

/-
Shallow embedding of the screen-sharing front-end component in
src/src/App.tsx.

The component is a single React function component.  Its observable logic
is a set of event handlers over mutable UI state:
  - React state: isSharing, isViewing, socket, roomId, status,
    availableCount, availableRooms, canShare;
  - refs: localVideoRef, remoteVideoRef, peerConnectionRef, localStreamRef.

The embedding models each handler as a pure function from an `AppState`
to a `StepOut` (next state, relay messages emitted, console lines), or to
`Except String StepOut` for handlers that can raise at runtime.  Machine
resources are made explicit so leaks are provable:
  - `pcOpen` is the list of ids of RTCPeerConnection objects that were
    created and not yet closed; `pcNext` is the next fresh id;
  - `streamOpen` is the list of ids of display-media streams whose tracks
    have not all been stopped; `streamNext` is the next fresh id.

Modelled platform behavior (from the WebRTC and screen-capture APIs, not
from this repository):
  - `setRemoteDescription` requires a description object; passing
    `undefined` or any non-object raises a TypeError;
  - `addIceCandidate` accepts an object, `null` or `undefined` (treated
    as end-of-candidates) and raises on strings and numbers;
  - reading a property of `null` or `undefined` raises a TypeError, while
    optional chaining (`data?.field`) yields `undefined` instead;
  - `getDisplayMedia` either grants a fresh stream or rejects.

Abstractions, each noted where used:
  - message payloads on outbound relay messages are not modelled (no
    claim depends on their contents), only the event names are;
  - the initiator flag of `createPeerConnection` changes only which
    callbacks are installed, not the state effect modelled here, so it is
    dropped; transport callbacks are modelled as events the environment
    may deliver;
  - `socketSet` models the `socket` React state being non-null; the mount
    effect sets it immediately, so `initState` has it true;
  - the remote video element is mounted exactly when
    `isViewing && status === media-connected` (the JSX condition), which
    is why the `ontrack` guard reads those fields;
  - console output is recorded only on non-raising paths.
-/

namespace ScreenShare

/-- Session status values, exactly the string values assigned in the
source (`idle`, `connected-to-signaling`, `sharing`, `negotiating`,
`media-connected`, `disconnected`). -/
inductive Status
  | idle
  | connectedToSignaling
  | sharing
  | negotiating
  | mediaConnected
  | disconnected
deriving DecidableEq, Repr

/-- Names of the client-to-relay messages emitted by the component.
Payloads are abstracted away; no claim depends on them. -/
inductive MsgName
  | startShare
  | stopShare
  | joinView
  | getAvailable
  | getRooms
  | offer
  | answer
  | iceCandidate
deriving DecidableEq, Repr

/-- Value of one field of an inbound relay payload.  Arrays are modelled
as lists of strings (the room lists the relay is expected to send);
objects are opaque since only their object-ness is ever tested. -/
inductive JsField
  | null
  | undefined
  | num (n : Int)
  | str (s : String)
  | arr (xs : List String)
  | obj
deriving DecidableEq, Repr

/-- An inbound relay payload: the `data` argument of a socket handler.
It may be a primitive or an object with named fields. -/
inductive JsData
  | null
  | undefined
  | num (n : Int)
  | str (s : String)
  | obj (fields : List (String × JsField))
deriving DecidableEq, Repr

/-- Property read `data.k`: raises a TypeError on `null` and `undefined`,
yields `undefined` on primitives and on absent fields. -/
def JsData.get? (d : JsData) (k : String) : Except String JsField :=
  match d with
  | .null => .error ("TypeError")
  | .undefined => .error ("TypeError")
  | .obj fs => .ok ((fs.lookup k).getD JsField.undefined)
  | .num _ => .ok JsField.undefined
  | .str _ => .ok JsField.undefined

/-- Optional-chained read `data?.k`: never raises. -/
def JsData.getOpt (d : JsData) (k : String) : JsField :=
  match d with
  | .obj fs => (fs.lookup k).getD JsField.undefined
  | _ => JsField.undefined

/-- JavaScript truthiness of a field value. -/
def JsField.truthy : JsField → Bool
  | .null => false
  | .undefined => false
  | .num n => !(n == 0)
  | .str s => !(s == "")
  | .arr _ => true
  | .obj => true

/-- Whether a field value is a number (the `typeof data?.count` guard). -/
def isNumField : JsField → Bool
  | .num _ => true
  | _ => false

/-- Whether a field value is an array (the `Array.isArray` guard). -/
def isArrField : JsField → Bool
  | .arr _ => true
  | _ => false

/-- String coercion used when a field value is written into the URL
query parameter. -/
def jsToString : JsField → String
  | .str s => s
  | .num n => toString n
  | .null => "null"
  | .undefined => "undefined"
  | .arr _ => ""
  | .obj => "object"

/-- Modelled `setRemoteDescription`: requires a description object,
raises a TypeError otherwise. -/
def rtcSetRemoteDescription : JsField → Except String Unit
  | .obj => .ok ()
  | _ => .error ("TypeError")

/-- Modelled `addIceCandidate`: an object, `null` or `undefined` is
accepted (end-of-candidates); strings and numbers raise. -/
def rtcAddIceCandidate : JsField → Except String Unit
  | .num _ => .error ("TypeError")
  | .str _ => .error ("TypeError")
  | _ => .ok ()

/-- Static facts about the page environment, read at mount and inside
`startSharing`: secure context, top-level frame, capture API presence,
mobile user agent, and the `room` URL query parameter at load. -/
structure Platform where
  isSecure : Bool
  isTopLevel : Bool
  hasAPI : Bool
  isMobile : Bool
  queryRoom : Option String
deriving DecidableEq, Repr

/-- The mutable state of the component: React state, refs, and the
explicit resource ledgers for peer connections and media streams. -/
structure AppState where
  isSharing : Bool
  isViewing : Bool
  socketSet : Bool
  roomId : JsField
  queryRoom : Option String
  status : Status
  availableCount : Int
  availableRooms : List String
  canShare : Bool
  localVideoBound : Bool
  remoteVideoBound : Bool
  peerConnectionRef : Option Nat
  localStreamRef : Option Nat
  pcOpen : List Nat
  pcNext : Nat
  streamOpen : List Nat
  streamNext : Nat
deriving DecidableEq, Repr

/-- State right after mount: the initial React state values, `canShare`
computed from the platform, the room id taken from the query parameter,
and the socket created by the mount effect. -/
def initState (p : Platform) : AppState where
  isSharing := false
  isViewing := false
  socketSet := true
  roomId := match p.queryRoom with
    | some r => JsField.str r
    | none => JsField.str ("")
  queryRoom := p.queryRoom
  status := Status.idle
  availableCount := 0
  availableRooms := []
  canShare := p.isSecure && p.isTopLevel && p.hasAPI && !p.isMobile
  localVideoBound := false
  remoteVideoBound := false
  peerConnectionRef := none
  localStreamRef := none
  pcOpen := []
  pcNext := 0
  streamOpen := []
  streamNext := 0

/-- Result of running one handler: the next state, the relay messages
emitted (in order), and the console lines printed. -/
structure StepOut where
  st : AppState
  sent : List MsgName
  log : List String
deriving DecidableEq, Repr

/-- Emissions guarded by `socket?.emit` or `if (socket)`. -/
def emitIf (b : Bool) (ms : List MsgName) : List MsgName :=
  if b then ms else []

/-- The body of `createPeerConnection`: allocates a fresh peer
connection, installs its callbacks, and overwrites `peerConnectionRef`.
It never closes the previously referenced connection. -/
def createPeerConnection (s : AppState) : AppState :=
  { s with
    pcOpen := s.pcNext :: s.pcOpen
    peerConnectionRef := some s.pcNext
    pcNext := s.pcNext + 1 }

/-- The `if (peerConnectionRef.current) { close(); ref = null }` pattern
shared by `stopSharing` and `stopViewing`. -/
def closePc (s : AppState) : AppState :=
  match s.peerConnectionRef with
  | none => s
  | some i => { s with pcOpen := s.pcOpen.erase i, peerConnectionRef := none }

/-- Handler for the socket `connect` event. -/
def onConnect (s : AppState) : StepOut :=
  ⟨{ s with status := Status.connectedToSignaling },
   [MsgName.getAvailable, MsgName.getRooms],
   ["Connected to server"]⟩

/-- Handler for `connect_error`; `b` is `socketInstance.connected` at the
time of the callback. -/
def onConnectError (b : Bool) (s : AppState) : StepOut :=
  if b then ⟨s, [], ["Socket connect error"]⟩
  else ⟨{ s with status := Status.disconnected }, [], ["Socket connect error"]⟩

/-- Handler for `connect_timeout`. -/
def onConnectTimeout (s : AppState) : StepOut :=
  ⟨{ s with status := Status.disconnected }, [], ["Socket connect timeout"]⟩

/-- Handler for `reconnect_attempt`. -/
def onReconnectAttempt (s : AppState) : StepOut :=
  ⟨{ s with status := Status.negotiating }, [], []⟩

/-- Handler for `reconnect_error`. -/
def onReconnectError (s : AppState) : StepOut :=
  ⟨s, [], ["Socket reconnect error"]⟩

/-- Handler for `reconnect_failed`. -/
def onReconnectFailed (s : AppState) : StepOut :=
  ⟨{ s with status := Status.disconnected }, [], []⟩

/-- Handler for the socket `disconnect` event. -/
def onDisconnect (s : AppState) : StepOut :=
  ⟨{ s with status := Status.disconnected }, [], ["Socket disconnected"]⟩

/-- Handler for the socket `reconnect` event. -/
def onReconnect (s : AppState) : StepOut :=
  ⟨{ s with status := Status.connectedToSignaling },
   [MsgName.getAvailable, MsgName.getRooms],
   ["Socket reconnected"]⟩

/-- Handler for `room-created`: reads `data.roomId` unguarded (raising on
a null payload), stores it, rewrites the URL query parameter, and
refreshes both snapshots. -/
def onRoomCreated (s : AppState) (d : JsData) : Except String StepOut :=
  match d.get? ("roomId") with
  | .error e => .error e
  | .ok v =>
      .ok ⟨{ s with roomId := v, queryRoom := some (jsToString v) },
           [MsgName.getAvailable, MsgName.getRooms],
           ["Room created:"]⟩

/-- Handler for `available-count`: guarded by a `typeof` check. -/
def onAvailableCount (s : AppState) (d : JsData) : StepOut :=
  match d.getOpt ("count") with
  | .num n => ⟨{ s with availableCount := n }, [], []⟩
  | _ => ⟨s, [], []⟩

/-- Handler for `available-rooms`: guarded by `Array.isArray`. -/
def onAvailableRooms (s : AppState) (d : JsData) : StepOut :=
  match d.getOpt ("rooms") with
  | .arr xs => ⟨{ s with availableRooms := xs }, [], []⟩
  | _ => ⟨s, [], []⟩

/-- Handler for `viewer-joined`: sets status to negotiating, and when a
peer connection exists creates and sends an offer. -/
def onViewerJoined (s : AppState) : StepOut :=
  match s.peerConnectionRef with
  | some _ =>
      ⟨{ s with status := Status.negotiating }, [MsgName.offer], ["Viewer joined"]⟩
  | none =>
      ⟨{ s with status := Status.negotiating }, [], ["Viewer joined"]⟩

/-- Handler for an inbound `offer`: gated on the peer connection
existing; applies the remote description (raising on a missing or
non-object `offer` field) and answers.  It never changes `status`. -/
def onOffer (s : AppState) (d : JsData) : Except String StepOut :=
  match s.peerConnectionRef with
  | none => .ok ⟨s, [], ["Received offer"]⟩
  | some _ =>
      match d.get? ("offer") with
      | .error e => .error e
      | .ok v =>
          match rtcSetRemoteDescription v with
          | .error e => .error e
          | .ok _ => .ok ⟨s, [MsgName.answer], ["Received offer"]⟩

/-- Handler for an inbound `answer`: gated on the peer connection
existing; applies the remote description and then sets status to
`media-connected` directly. -/
def onAnswer (s : AppState) (d : JsData) : Except String StepOut :=
  match s.peerConnectionRef with
  | none => .ok ⟨s, [], ["Received answer"]⟩
  | some _ =>
      match d.get? ("answer") with
      | .error e => .error e
      | .ok v =>
          match rtcSetRemoteDescription v with
          | .error e => .error e
          | .ok _ =>
              .ok ⟨{ s with status := Status.mediaConnected }, [],
                   ["Received answer"]⟩

/-- Handler for an inbound `ice-candidate`: gated on the peer connection
existing; forwards the candidate to the transport. -/
def onIceCandidateMsg (s : AppState) (d : JsData) : Except String StepOut :=
  match s.peerConnectionRef with
  | none => .ok ⟨s, [], ["Received ICE candidate"]⟩
  | some _ =>
      match d.get? ("candidate") with
      | .error e => .error e
      | .ok v =>
          match rtcAddIceCandidate v with
          | .error e => .error e
          | .ok _ => .ok ⟨s, [], ["Received ICE candidate"]⟩

/-- Possible values of `RTCPeerConnection.connectionState` reaching the
installed `onconnectionstatechange` callback. -/
inductive ConnState
  | connNew
  | connecting
  | connected
  | disconnected
  | failed
  | closed
deriving DecidableEq, Repr

/-- Possible values of `iceConnectionState` reaching the installed
`oniceconnectionstatechange` callback. -/
inductive IceConnState
  | iceNew
  | checking
  | connected
  | completed
  | disconnected
  | failed
  | closed
deriving DecidableEq, Repr

/-- The `onconnectionstatechange` callback body. -/
def onConnectionStateChange (s : AppState) (c : ConnState) : StepOut :=
  match c with
  | .connected => ⟨{ s with status := Status.mediaConnected }, [], []⟩
  | .disconnected => ⟨{ s with status := Status.disconnected }, [], []⟩
  | .failed => ⟨{ s with status := Status.disconnected }, [], []⟩
  | .connecting => ⟨{ s with status := Status.negotiating }, [], []⟩
  | _ => ⟨s, [], []⟩

/-- The `oniceconnectionstatechange` callback body. -/
def onIceConnectionStateChange (s : AppState) (c : IceConnState) : StepOut :=
  match c with
  | .connected => ⟨{ s with status := Status.mediaConnected }, [], []⟩
  | .checking => ⟨{ s with status := Status.negotiating }, [], []⟩
  | .failed => ⟨{ s with status := Status.disconnected }, [], []⟩
  | .disconnected => ⟨{ s with status := Status.disconnected }, [], []⟩
  | _ => ⟨s, [], []⟩

/-- The viewer-side `ontrack` callback: binds the inbound stream to the
remote video element when that element is mounted (it is mounted exactly
when `isViewing` and status is `media-connected`) and a stream arrived,
then sets status to `media-connected`. -/
def onTrack (s : AppState) (hasStream : Bool) : StepOut :=
  if s.isViewing && s.status == Status.mediaConnected && hasStream then
    ⟨{ s with remoteVideoBound := true, status := Status.mediaConnected },
     [], ["Received remote stream"]⟩
  else ⟨s, [], ["Received remote stream"]⟩

/-- The `onicecandidate` callback: forwards a discovered candidate when
one is present and the socket state is set. -/
def onIceCandidateFound (s : AppState) (hasCandidate : Bool) : StepOut :=
  ⟨s, emitIf (hasCandidate && s.socketSet) [MsgName.iceCandidate], []⟩

/-- The sharer-side `onnegotiationneeded` callback: creates an offer and
sends it when the socket state is set; its body swallows every error. -/
def onNegotiationNeeded (s : AppState) : StepOut :=
  ⟨s, emitIf s.socketSet [MsgName.offer], []⟩

/-- Outcome of the `getDisplayMedia` request. -/
inductive CaptureResult
  | granted
  | denied
deriving DecidableEq, Repr

/-- The `startSharing` action: three environment guards that only log and
return, then the capture request; on grant it stores the stream, creates
a peer connection, attaches the tracks, sets status to `sharing` and
notifies the relay; on rejection the catch block sets status to `idle`. -/
def startSharing (p : Platform) (cap : CaptureResult) (s : AppState) : StepOut :=
  if !p.isSecure then ⟨s, [], ["Use HTTPS or localhost"]⟩
  else if !p.isTopLevel then ⟨s, [], ["Open in a browser tab"]⟩
  else if !p.hasAPI then ⟨s, [], ["Screen capture API unavailable"]⟩
  else
    match cap with
    | .denied =>
        ⟨{ s with status := Status.idle }, [], ["Error starting screen share:"]⟩
    | .granted =>
        let sid := s.streamNext
        let s1 := { s with
          localStreamRef := some sid
          streamOpen := sid :: s.streamOpen
          streamNext := sid + 1
          isSharing := true
          localVideoBound := true }
        let s2 := createPeerConnection s1
        let s3 := { s2 with status := Status.sharing }
        ⟨s3, emitIf s3.socketSet [MsgName.startShare, MsgName.getAvailable], []⟩

/-- The `stopSharing` action: stops every track of the local stream and
clears the reference, closes the referenced peer connection, unbinds the
local video, clears the sharing flag, sets status to `idle`, and notifies
the relay. -/
def stopSharing (s : AppState) : StepOut :=
  let s1 := match s.localStreamRef with
    | some i => { s with streamOpen := s.streamOpen.erase i, localStreamRef := none }
    | none => s
  let s2 := closePc s1
  let s3 := { s2 with
    localVideoBound := false
    isSharing := false
    status := Status.idle }
  ⟨s3, emitIf s3.socketSet [MsgName.stopShare, MsgName.getAvailable], []⟩

/-- The `joinSelectedRoom` action. -/
def joinSelectedRoom (id : String) (s : AppState) : StepOut :=
  ⟨{ s with roomId := JsField.str id, isViewing := true, status := Status.negotiating },
   emitIf s.socketSet [MsgName.joinView], []⟩

/-- The `fetchRooms` action. -/
def fetchRooms (s : AppState) : StepOut :=
  ⟨s, emitIf s.socketSet [MsgName.getRooms], []⟩

/-- State after the first three statements of `startViewing`: a fresh
peer connection (the prior one is not closed), the viewing flag set, and
status negotiating.  The record update does not touch `queryRoom`,
`roomId` or `socketSet`, so the branching below reads them off `s`. -/
def viewBase (s : AppState) : AppState :=
  { (createPeerConnection s) with
    isViewing := true
    status := Status.negotiating }

/-- The `startViewing` action: creates a peer connection (without closing
a prior one), marks viewing, sets status to negotiating, then joins via
the query parameter, the current room id, or a room-list request. -/
def startViewing (s : AppState) : StepOut :=
  match s.queryRoom with
  | some r => joinSelectedRoom r (viewBase s)
  | none =>
      if s.roomId.truthy then
        ⟨viewBase s, emitIf s.socketSet [MsgName.joinView], []⟩
      else fetchRooms (viewBase s)

/-- The `stopViewing` action: closes the referenced peer connection,
unbinds the remote video, clears the viewing flag and sets status to
`idle`.  It emits no relay message. -/
def stopViewing (s : AppState) : StepOut :=
  let s1 := closePc s
  ⟨{ s1 with
      remoteVideoBound := false
      isViewing := false
      status := Status.idle },
   [], []⟩

/-- The `retrySignaling` action: guarded on the socket state. -/
def retrySignaling (s : AppState) : StepOut :=
  if s.socketSet then ⟨{ s with status := Status.negotiating }, [], []⟩
  else ⟨s, [], []⟩

/-- Every event the component reacts to: socket lifecycle events, relay
messages (with payload), transport callbacks, and user actions. -/
inductive Event
  | socketConnect
  | socketConnectError (b : Bool)
  | socketConnectTimeout
  | reconnectAttempt
  | reconnectError
  | reconnectFailed
  | socketDisconnect
  | socketReconnect
  | roomCreated (d : JsData)
  | availableCount (d : JsData)
  | availableRooms (d : JsData)
  | viewerJoined
  | offerMsg (d : JsData)
  | answerMsg (d : JsData)
  | iceCandidateMsg (d : JsData)
  | connectionStateChange (c : ConnState)
  | iceConnectionStateChange (c : IceConnState)
  | trackEvent (hasStream : Bool)
  | iceCandidateFound (hasCandidate : Bool)
  | negotiationNeeded
  | uiStartShare (cap : CaptureResult)
  | uiStopShare
  | uiStartView
  | uiStopView
  | uiRetry
  | uiFetchRooms
  | uiJoinRoom (id : String)
  | trackEnded
deriving DecidableEq, Repr

/-- Dispatch of one event to its handler, exactly as the handlers are
registered in the source. The `trackEnded` event is the `onended`
callback installed on the captured video track, which calls
`stopSharing`. -/
def step (p : Platform) (s : AppState) : Event → Except String StepOut
  | .socketConnect => .ok (onConnect s)
  | .socketConnectError b => .ok (onConnectError b s)
  | .socketConnectTimeout => .ok (onConnectTimeout s)
  | .reconnectAttempt => .ok (onReconnectAttempt s)
  | .reconnectError => .ok (onReconnectError s)
  | .reconnectFailed => .ok (onReconnectFailed s)
  | .socketDisconnect => .ok (onDisconnect s)
  | .socketReconnect => .ok (onReconnect s)
  | .roomCreated d => onRoomCreated s d
  | .availableCount d => .ok (onAvailableCount s d)
  | .availableRooms d => .ok (onAvailableRooms s d)
  | .viewerJoined => .ok (onViewerJoined s)
  | .offerMsg d => onOffer s d
  | .answerMsg d => onAnswer s d
  | .iceCandidateMsg d => onIceCandidateMsg s d
  | .connectionStateChange c => .ok (onConnectionStateChange s c)
  | .iceConnectionStateChange c => .ok (onIceConnectionStateChange s c)
  | .trackEvent h => .ok (onTrack s h)
  | .iceCandidateFound h => .ok (onIceCandidateFound s h)
  | .negotiationNeeded => .ok (onNegotiationNeeded s)
  | .uiStartShare cap => .ok (startSharing p cap s)
  | .uiStopShare => .ok (stopSharing s)
  | .uiStartView => .ok (startViewing s)
  | .uiStopView => .ok (stopViewing s)
  | .uiRetry => .ok (retrySignaling s)
  | .uiFetchRooms => .ok (fetchRooms s)
  | .uiJoinRoom id => .ok (joinSelectedRoom id s)
  | .trackEnded => .ok (stopSharing s)

/-- Whether the rendered UI can deliver a given user event in a given
state: the Share button is rendered only while not sharing and is
disabled unless `canShare`; Stop Sharing only while sharing; View only
while not viewing; Stop Viewing, Refresh Rooms only while viewing; the
room-list buttons only while viewing without connected media.  Non-user
events are always deliverable. -/
def uiAllowed (s : AppState) : Event → Bool
  | .uiStartShare _ => !s.isSharing && s.canShare
  | .uiStopShare => s.isSharing
  | .uiStartView => !s.isViewing
  | .uiStopView => s.isViewing
  | .uiJoinRoom _ => s.isViewing && !(s.status == Status.mediaConnected)
  | .uiFetchRooms => s.isViewing
  | _ => true

/-- States reachable from mount through events the rendered UI and the
environment can deliver, where a raising handler leaves the state as it
was (no React state update precedes any raising point in the source). -/
inductive Reach (p : Platform) : AppState → Prop
  | init : Reach p (initState p)
  | next {s : AppState} {e : Event} {o : StepOut} :
      Reach p s → uiAllowed s e = true → step p s e = Except.ok o → Reach p o.st

/-- Coupling invariant for the local media source: the sharing flag
mirrors the stream reference, and the set of unreleased streams is empty
or exactly the referenced one. -/
def mediaInv (s : AppState) : Bool :=
  (s.isSharing == s.localStreamRef.isSome) &&
  (match s.localStreamRef with
   | none => s.streamOpen == ([] : List Nat)
   | some i => s.streamOpen == [i])

/-- A fully capable desktop platform with no room query parameter. -/
def pAll : Platform where
  isSecure := true
  isTopLevel := true
  hasAPI := true
  isMobile := false
  queryRoom := none

/-- An insecure-context platform (capture unavailable). -/
def pInsecure : Platform where
  isSecure := false
  isTopLevel := true
  hasAPI := true
  isMobile := false
  queryRoom := none

/-- State after mount and `startViewing` on `pAll`: one open peer
connection, referenced, status negotiating. -/
def sView : AppState := (startViewing (initState pAll)).st

/-- State after additionally clicking Share with capture granted: a
second peer connection has been created while the first is still open. -/
def sViewShare : AppState := (startSharing pAll CaptureResult.granted sView).st

/-- State after mount and the socket `connect` event on the insecure
platform: status is connected-to-signaling. -/
def sConnIns : AppState := (onConnect (initState pInsecure)).st

/-- A well-formed `answer` relay payload. -/
def goodAnswerPayload : JsData := JsData.obj [("answer", JsField.obj)]

/-- A well-formed `offer` relay payload. -/
def goodOfferPayload : JsData := JsData.obj [("offer", JsField.obj)]

/-- The media-source coupling invariant holds after every single event
the rendered UI and the environment can deliver. -/
theorem mediaInv_step (p : Platform) (s : AppState) (e : Event) (o : StepOut)
    (hInv : mediaInv s = true) (ha : uiAllowed s e = true)
    (hs : step p s e = Except.ok o) : mediaInv o.st = true := by
  cases e with
  | socketConnect =>
      simp only [step] at hs; injection hs with h2; subst h2
      simpa [mediaInv, onConnect] using hInv
  | socketConnectError b =>
      simp only [step] at hs; injection hs with h2; subst h2
      unfold onConnectError
      split <;> simpa [mediaInv] using hInv
  | socketConnectTimeout =>
      simp only [step] at hs; injection hs with h2; subst h2
      simpa [mediaInv, onConnectTimeout] using hInv
  | reconnectAttempt =>
      simp only [step] at hs; injection hs with h2; subst h2
      simpa [mediaInv, onReconnectAttempt] using hInv
  | reconnectError =>
      simp only [step] at hs; injection hs with h2; subst h2
      simpa [mediaInv, onReconnectError] using hInv
  | reconnectFailed =>
      simp only [step] at hs; injection hs with h2; subst h2
      simpa [mediaInv, onReconnectFailed] using hInv
  | socketDisconnect =>
      simp only [step] at hs; injection hs with h2; subst h2
      simpa [mediaInv, onDisconnect] using hInv
  | socketReconnect =>
      simp only [step] at hs; injection hs with h2; subst h2
      simpa [mediaInv, onReconnect] using hInv
  | roomCreated d =>
      simp only [step] at hs
      unfold onRoomCreated at hs
      split at hs
      · exact Except.noConfusion hs
      · injection hs with h2; subst h2
        simpa [mediaInv] using hInv
  | availableCount d =>
      simp only [step] at hs; injection hs with h2; subst h2
      unfold onAvailableCount
      split <;> simpa [mediaInv] using hInv
  | availableRooms d =>
      simp only [step] at hs; injection hs with h2; subst h2
      unfold onAvailableRooms
      split <;> simpa [mediaInv] using hInv
  | viewerJoined =>
      simp only [step] at hs; injection hs with h2; subst h2
      unfold onViewerJoined
      split <;> simpa [mediaInv] using hInv
  | offerMsg d =>
      simp only [step] at hs
      unfold onOffer at hs
      split at hs
      · injection hs with h2; subst h2; simpa [mediaInv] using hInv
      · split at hs
        · exact Except.noConfusion hs
        · split at hs
          · exact Except.noConfusion hs
          · injection hs with h2; subst h2; simpa [mediaInv] using hInv
  | answerMsg d =>
      simp only [step] at hs
      unfold onAnswer at hs
      split at hs
      · injection hs with h2; subst h2; simpa [mediaInv] using hInv
      · split at hs
        · exact Except.noConfusion hs
        · split at hs
          · exact Except.noConfusion hs
          · injection hs with h2; subst h2; simpa [mediaInv] using hInv
  | iceCandidateMsg d =>
      simp only [step] at hs
      unfold onIceCandidateMsg at hs
      split at hs
      · injection hs with h2; subst h2; simpa [mediaInv] using hInv
      · split at hs
        · exact Except.noConfusion hs
        · split at hs
          · exact Except.noConfusion hs
          · injection hs with h2; subst h2; simpa [mediaInv] using hInv
  | connectionStateChange c =>
      simp only [step] at hs; injection hs with h2; subst h2
      unfold onConnectionStateChange
      split <;> simpa [mediaInv] using hInv
  | iceConnectionStateChange c =>
      simp only [step] at hs; injection hs with h2; subst h2
      unfold onIceConnectionStateChange
      split <;> simpa [mediaInv] using hInv
  | trackEvent h =>
      simp only [step] at hs; injection hs with h2; subst h2
      unfold onTrack
      split <;> simpa [mediaInv] using hInv
  | iceCandidateFound h =>
      simp only [step] at hs; injection hs with h2; subst h2
      simpa [mediaInv, onIceCandidateFound] using hInv
  | negotiationNeeded =>
      simp only [step] at hs; injection hs with h2; subst h2
      simpa [mediaInv, onNegotiationNeeded] using hInv
  | uiStartShare cap =>
      simp only [step] at hs; injection hs with h2; subst h2
      have hShare : s.isSharing = false := by
        simp only [uiAllowed, Bool.and_eq_true, Bool.not_eq_true'] at ha
        exact ha.1
      unfold startSharing
      split
      · simpa [mediaInv] using hInv
      · split
        · simpa [mediaInv] using hInv
        · split
          · simpa [mediaInv] using hInv
          · cases cap with
            | granted =>
                unfold mediaInv at hInv
                simp only [Bool.and_eq_true, beq_iff_eq] at hInv
                have hRef : s.localStreamRef = none := by
                  cases hr : s.localStreamRef with
                  | none => rfl
                  | some i => rw [hr, hShare] at hInv; simp at hInv
                rw [hRef] at hInv
                simp only [Option.isSome_none] at hInv
                have hso : s.streamOpen = [] := by simpa using hInv.2
                simp [mediaInv, createPeerConnection, hRef, hso]
            | denied => simpa [mediaInv] using hInv
  | uiStopShare =>
      simp only [step] at hs; injection hs with h2; subst h2
      unfold stopSharing closePc
      unfold mediaInv at hInv ⊢
      cases h1 : s.localStreamRef with
      | none =>
          rw [h1] at hInv
          cases h3 : s.peerConnectionRef <;> simp_all
      | some i =>
          rw [h1] at hInv
          cases h3 : s.peerConnectionRef <;> simp_all
  | uiStartView =>
      simp only [step] at hs; injection hs with h2; subst h2
      unfold startViewing joinSelectedRoom fetchRooms viewBase
      split
      · simpa [mediaInv, createPeerConnection] using hInv
      · split <;> simpa [mediaInv, createPeerConnection] using hInv
  | uiStopView =>
      simp only [step] at hs; injection hs with h2; subst h2
      unfold stopViewing closePc
      unfold mediaInv at hInv ⊢
      cases h3 : s.peerConnectionRef <;> simp_all
  | uiRetry =>
      simp only [step] at hs; injection hs with h2; subst h2
      unfold retrySignaling
      split <;> simpa [mediaInv] using hInv
  | uiFetchRooms =>
      simp only [step] at hs; injection hs with h2; subst h2
      simpa [mediaInv, fetchRooms, emitIf] using hInv
  | uiJoinRoom id =>
      simp only [step] at hs; injection hs with h2; subst h2
      simpa [mediaInv, joinSelectedRoom] using hInv
  | trackEnded =>
      simp only [step] at hs; injection hs with h2; subst h2
      unfold stopSharing closePc
      unfold mediaInv at hInv ⊢
      cases h1 : s.localStreamRef with
      | none =>
          rw [h1] at hInv
          cases h3 : s.peerConnectionRef <;> simp_all
      | some i =>
          rw [h1] at hInv
          cases h3 : s.peerConnectionRef <;> simp_all

/-- The media-source coupling invariant holds in every reachable state. -/
theorem mediaInv_reach (p : Platform) (s : AppState) (h : Reach p s) :
    mediaInv s = true := by
  induction h with
  | init => rfl
  | next hr ha hs ih => exact mediaInv_step _ _ _ _ ih ha hs

/-- Claim C4: along every sequence of start-share and stop-share actions
the UI can deliver, at most one local media source is open at any time,
and `stopSharing` always clears the stream reference and leaves no open
local media source behind. -/
theorem c4_single_local_media (p : Platform) (s : AppState) (h : Reach p s) :
    s.streamOpen.length ≤ 1 ∧
    (stopSharing s).st.localStreamRef = none ∧
    (stopSharing s).st.streamOpen = [] := by
  have hInv := mediaInv_reach p s h
  unfold mediaInv at hInv
  simp only [Bool.and_eq_true, beq_iff_eq] at hInv
  unfold stopSharing closePc
  cases h1 : s.localStreamRef with
  | none =>
      simp only [h1] at hInv
      have hso : s.streamOpen = [] := by simpa using hInv.2
      refine ⟨by rw [hso]; simp, ?_, ?_⟩ <;>
        cases h3 : s.peerConnectionRef <;> simp_all
  | some i =>
      simp only [h1] at hInv
      have hso : s.streamOpen = [i] := by simpa using hInv.2
      refine ⟨by rw [hso]; simp, ?_, ?_⟩ <;>
        cases h3 : s.peerConnectionRef <;> simp_all

/-- Witness for C4 at the initial state of the capable platform. -/
theorem c4_single_local_media_witness :
    (initState pAll).streamOpen.length ≤ 1 ∧
    (stopSharing (initState pAll)).st.localStreamRef = none ∧
    (stopSharing (initState pAll)).st.streamOpen = [] :=
  c4_single_local_media pAll (initState pAll) Reach.init

/-- Claim C3: the handler for the socket `reconnect` event requests the
availability snapshot and the room-list snapshot exactly once each, and
the `connect` handler that also runs on a connection does the same. -/
theorem c3_reconnect_snapshots (p : Platform) (s : AppState) :
    step p s Event.socketReconnect =
      Except.ok ⟨{ s with status := Status.connectedToSignaling },
        [MsgName.getAvailable, MsgName.getRooms], ["Socket reconnected"]⟩ ∧
    ([MsgName.getAvailable, MsgName.getRooms]).count MsgName.getAvailable = 1 ∧
    ([MsgName.getAvailable, MsgName.getRooms]).count MsgName.getRooms = 1 ∧
    step p s Event.socketConnect =
      Except.ok ⟨{ s with status := Status.connectedToSignaling },
        [MsgName.getAvailable, MsgName.getRooms], ["Connected to server"]⟩ :=
  ⟨rfl, by decide, by decide, rfl⟩

/-- Claim C5: when the three environment guards pass but the capture
request is rejected, `startSharing` catches the error, sets status to
`idle`, emits nothing, and creates no transport session. -/
theorem c5_capture_denied (p : Platform) (s : AppState)
    (h1 : p.isSecure = true) (h2 : p.isTopLevel = true) (h3 : p.hasAPI = true) :
    step p s (Event.uiStartShare CaptureResult.denied) =
      Except.ok ⟨{ s with status := Status.idle }, [],
        ["Error starting screen share:"]⟩ ∧
    ({ s with status := Status.idle } : AppState).pcOpen = s.pcOpen ∧
    ({ s with status := Status.idle } : AppState).pcNext = s.pcNext ∧
    ({ s with status := Status.idle } : AppState).peerConnectionRef =
      s.peerConnectionRef := by
  refine ⟨?_, rfl, rfl, rfl⟩
  simp [step, startSharing, h1, h2, h3]

/-- Witness for C5 at the initial state of the capable platform. -/
theorem c5_capture_denied_witness :
    step pAll (initState pAll) (Event.uiStartShare CaptureResult.denied) =
      Except.ok ⟨{ initState pAll with status := Status.idle }, [],
        ["Error starting screen share:"]⟩ ∧
    ({ initState pAll with status := Status.idle } : AppState).pcOpen =
      (initState pAll).pcOpen ∧
    ({ initState pAll with status := Status.idle } : AppState).pcNext =
      (initState pAll).pcNext ∧
    ({ initState pAll with status := Status.idle } : AppState).peerConnectionRef =
      (initState pAll).peerConnectionRef :=
  c5_capture_denied pAll (initState pAll) rfl rfl rfl

/-- Claim C8: when no transport session exists, the handlers for inbound
`offer`, `answer` and `ice-candidate` messages only log: the state is
unchanged, nothing is sent, and nothing is raised. -/
theorem c8_gated_on_session (p : Platform) (s : AppState) (d : JsData)
    (h : s.peerConnectionRef = none) :
    step p s (Event.offerMsg d) = Except.ok ⟨s, [], ["Received offer"]⟩ ∧
    step p s (Event.answerMsg d) = Except.ok ⟨s, [], ["Received answer"]⟩ ∧
    step p s (Event.iceCandidateMsg d) =
      Except.ok ⟨s, [], ["Received ICE candidate"]⟩ := by
  refine ⟨?_, ?_, ?_⟩ <;>
    simp [step, onOffer, onAnswer, onIceCandidateMsg, h]

/-- Witness for C8 at the initial state, which has no transport session. -/
theorem c8_gated_on_session_witness :
    step pAll (initState pAll) (Event.offerMsg JsData.null) =
      Except.ok ⟨initState pAll, [], ["Received offer"]⟩ ∧
    step pAll (initState pAll) (Event.answerMsg JsData.null) =
      Except.ok ⟨initState pAll, [], ["Received answer"]⟩ ∧
    step pAll (initState pAll) (Event.iceCandidateMsg JsData.null) =
      Except.ok ⟨initState pAll, [], ["Received ICE candidate"]⟩ :=
  c8_gated_on_session pAll (initState pAll) JsData.null rfl

/-- Claim C9: every `reconnect_attempt` event, and every Retry click with
the socket state set, sets status to `negotiating`; in particular this
happens from the initial state, where no transport session exists, so
`negotiating` is observable with no peer connection at all. -/
theorem c9_negotiating_without_session (p : Platform) (s : AppState) :
    step p s Event.reconnectAttempt =
      Except.ok ⟨{ s with status := Status.negotiating }, [], []⟩ ∧
    (s.socketSet = true →
      step p s Event.uiRetry =
        Except.ok ⟨{ s with status := Status.negotiating }, [], []⟩) ∧
    (initState pAll).peerConnectionRef = none ∧
    (onReconnectAttempt (initState pAll)).st.status = Status.negotiating ∧
    (onReconnectAttempt (initState pAll)).st.peerConnectionRef = none ∧
    (onReconnectAttempt (initState pAll)).st.pcOpen = [] := by
  refine ⟨rfl, ?_, rfl, rfl, rfl, rfl⟩
  intro h
  simp [step, retrySignaling, h]

/-- Witness for C9 at the initial state, whose socket state is set. -/
theorem c9_negotiating_without_session_witness :
    step pAll (initState pAll) Event.uiRetry =
      Except.ok ⟨{ initState pAll with status := Status.negotiating }, [], []⟩ :=
  (c9_negotiating_without_session pAll (initState pAll)).2.1 rfl

/-- Claim C10: `stopViewing` closes the referenced transport session,
unbinds the remote video surface, clears the viewing flag, sets status to
`idle`, and emits no relay message, while `stopSharing` emits
`stop-share` followed by `get-available`. -/
theorem c10_stop_viewing_silent (p : Platform) (s : AppState) :
    step p s Event.uiStopView = Except.ok (stopViewing s) ∧
    (stopViewing s).sent = [] ∧
    (stopViewing s).st.peerConnectionRef = none ∧
    (stopViewing s).st.remoteVideoBound = false ∧
    (stopViewing s).st.isViewing = false ∧
    (stopViewing s).st.status = Status.idle ∧
    (∀ i, s.peerConnectionRef = some i →
      (stopViewing s).st.pcOpen = s.pcOpen.erase i) ∧
    (s.socketSet = true →
      (stopSharing s).sent = [MsgName.stopShare, MsgName.getAvailable] ∧
      step p s Event.uiStopShare = Except.ok (stopSharing s)) := by
  refine ⟨rfl, rfl, ?_, rfl, rfl, rfl, ?_, ?_⟩
  · unfold stopViewing closePc
    cases h3 : s.peerConnectionRef <;> simp_all
  · intro i hi
    simp [stopViewing, closePc, hi]
  · intro hsock
    refine ⟨?_, rfl⟩
    unfold stopSharing closePc
    cases h1 : s.localStreamRef <;> cases h3 : s.peerConnectionRef <;>
      simp_all [emitIf]

/-- Witness for C10 at the state with an open viewer session. -/
theorem c10_stop_viewing_silent_witness :
    (stopViewing sView).st.pcOpen = sView.pcOpen.erase 0 ∧
    (stopSharing sView).sent = [MsgName.stopShare, MsgName.getAvailable] ∧
    step pAll sView Event.uiStopShare = Except.ok (stopSharing sView) :=
  ⟨(c10_stop_viewing_silent pAll sView).2.2.2.2.2.2.1 0 rfl,
   (c10_stop_viewing_silent pAll sView).2.2.2.2.2.2.2 rfl⟩

/-- Claim C2 is false on the code: from mount, starting a view and then a
share (both deliverable by the rendered UI) leaves two peer connections
live at once, because `createPeerConnection` does not close the prior
session. -/
theorem c2_counterexample :
    ¬ (∀ s : AppState, Reach pAll s → s.pcOpen.length ≤ 1) := by
  intro hAll
  have h1 : Reach pAll sView :=
    Reach.next Reach.init (by decide)
      (show step pAll (initState pAll) Event.uiStartView =
        Except.ok (startViewing (initState pAll)) from rfl)
  have h2 : Reach pAll sViewShare :=
    Reach.next h1 (by decide)
      (show step pAll sView (Event.uiStartShare CaptureResult.granted) =
        Except.ok (startSharing pAll CaptureResult.granted sView) from rfl)
  have h3 := hAll sViewShare h2
  rw [show sViewShare.pcOpen = [1, 0] from by decide] at h3
  exact absurd h3 (by decide)

/-- A peer connection that was open and is no longer open after the
shared close-if-referenced block must have been the referenced one. -/
theorem mem_closePc (s : AppState) (i : Nat) (hmem : i ∈ s.pcOpen)
    (hno : i ∉ (closePc s).pcOpen) : s.peerConnectionRef = some i := by
  unfold closePc at hno
  split at hno
  · exact absurd hmem hno
  · rename_i j heq
    by_cases hij : i = j
    · rw [hij]; exact heq
    · exact absurd ((List.mem_erase_of_ne hij).mpr hmem) hno

/-- Claim C2 (amended): creating a transport session never closes the
prior one — `createPeerConnection` pushes the new connection onto the
open list with every previously open one still in it and references the
new one — and, over all events, an open session leaves the open set only
through the stop-share action, the stop-view action or the track-ended
handler, and only when it is the currently referenced session. -/
theorem c2_create_does_not_close :
    (∀ s : AppState, (createPeerConnection s).pcOpen = s.pcNext :: s.pcOpen ∧
      (createPeerConnection s).peerConnectionRef = some s.pcNext) ∧
    (∀ (s : AppState) (i : Nat), s.peerConnectionRef = some i →
      (stopViewing s).st.pcOpen = s.pcOpen.erase i ∧
      (stopViewing s).st.peerConnectionRef = none) ∧
    (∀ p s e o i, step p s e = Except.ok o →
      i ∈ s.pcOpen → i ∉ o.st.pcOpen →
      s.peerConnectionRef = some i ∧
      (e = Event.uiStopShare ∨ e = Event.uiStopView ∨ e = Event.trackEnded)) := by
  refine ⟨fun s => ⟨rfl, rfl⟩, ?_, ?_⟩
  · intro s i hi
    constructor <;> simp [stopViewing, closePc, hi]
  · intro p s e o i h hmem hno
    cases e with
    | socketConnect =>
        simp only [step] at h; injection h with h2; subst h2
        exact absurd hmem hno
    | socketConnectError b =>
        simp only [step] at h; injection h with h2; subst h2
        unfold onConnectError at hno
        split at hno <;> exact absurd hmem hno
    | socketConnectTimeout =>
        simp only [step] at h; injection h with h2; subst h2
        exact absurd hmem hno
    | reconnectAttempt =>
        simp only [step] at h; injection h with h2; subst h2
        exact absurd hmem hno
    | reconnectError =>
        simp only [step] at h; injection h with h2; subst h2
        exact absurd hmem hno
    | reconnectFailed =>
        simp only [step] at h; injection h with h2; subst h2
        exact absurd hmem hno
    | socketDisconnect =>
        simp only [step] at h; injection h with h2; subst h2
        exact absurd hmem hno
    | socketReconnect =>
        simp only [step] at h; injection h with h2; subst h2
        exact absurd hmem hno
    | roomCreated d =>
        simp only [step] at h
        unfold onRoomCreated at h
        split at h
        · exact Except.noConfusion h
        · injection h with h2; subst h2
          exact absurd hmem hno
    | availableCount d =>
        simp only [step] at h; injection h with h2; subst h2
        unfold onAvailableCount at hno
        split at hno <;> exact absurd hmem hno
    | availableRooms d =>
        simp only [step] at h; injection h with h2; subst h2
        unfold onAvailableRooms at hno
        split at hno <;> exact absurd hmem hno
    | viewerJoined =>
        simp only [step] at h; injection h with h2; subst h2
        unfold onViewerJoined at hno
        split at hno <;> exact absurd hmem hno
    | offerMsg d =>
        simp only [step] at h
        unfold onOffer at h
        split at h
        · injection h with h2; subst h2; exact absurd hmem hno
        · split at h
          · exact Except.noConfusion h
          · split at h
            · exact Except.noConfusion h
            · injection h with h2; subst h2; exact absurd hmem hno
    | answerMsg d =>
        simp only [step] at h
        unfold onAnswer at h
        split at h
        · injection h with h2; subst h2; exact absurd hmem hno
        · split at h
          · exact Except.noConfusion h
          · split at h
            · exact Except.noConfusion h
            · injection h with h2; subst h2; exact absurd hmem hno
    | iceCandidateMsg d =>
        simp only [step] at h
        unfold onIceCandidateMsg at h
        split at h
        · injection h with h2; subst h2; exact absurd hmem hno
        · split at h
          · exact Except.noConfusion h
          · split at h
            · exact Except.noConfusion h
            · injection h with h2; subst h2; exact absurd hmem hno
    | connectionStateChange c =>
        simp only [step] at h; injection h with h2; subst h2
        cases c <;> exact absurd hmem hno
    | iceConnectionStateChange c =>
        simp only [step] at h; injection h with h2; subst h2
        cases c <;> exact absurd hmem hno
    | trackEvent b =>
        simp only [step] at h; injection h with h2; subst h2
        unfold onTrack at hno
        split at hno <;> exact absurd hmem hno
    | iceCandidateFound b =>
        simp only [step] at h; injection h with h2; subst h2
        exact absurd hmem hno
    | negotiationNeeded =>
        simp only [step] at h; injection h with h2; subst h2
        exact absurd hmem hno
    | uiStartShare cap =>
        simp only [step] at h; injection h with h2; subst h2
        unfold startSharing at hno
        split at hno
        · exact absurd hmem hno
        · split at hno
          · exact absurd hmem hno
          · split at hno
            · exact absurd hmem hno
            · cases cap with
              | granted =>
                  exact absurd (List.mem_cons_of_mem s.pcNext hmem) hno
              | denied => exact absurd hmem hno
    | uiStopShare =>
        simp only [step] at h; injection h with h2; subst h2
        simp only [stopSharing] at hno
        split at hno
        · rename_i j heq
          exact ⟨mem_closePc
            { s with streamOpen := s.streamOpen.erase j, localStreamRef := none }
            i hmem hno, Or.inl rfl⟩
        · exact ⟨mem_closePc s i hmem hno, Or.inl rfl⟩
    | uiStartView =>
        simp only [step] at h; injection h with h2; subst h2
        unfold startViewing joinSelectedRoom fetchRooms viewBase at hno
        split at hno
        · exact absurd (List.mem_cons_of_mem s.pcNext hmem) hno
        · split at hno <;>
            exact absurd (List.mem_cons_of_mem s.pcNext hmem) hno
    | uiStopView =>
        simp only [step] at h; injection h with h2; subst h2
        exact ⟨mem_closePc s i hmem hno, Or.inr (Or.inl rfl)⟩
    | uiRetry =>
        simp only [step] at h; injection h with h2; subst h2
        unfold retrySignaling at hno
        split at hno <;> exact absurd hmem hno
    | uiFetchRooms =>
        simp only [step] at h; injection h with h2; subst h2
        exact absurd hmem hno
    | uiJoinRoom id =>
        simp only [step] at h; injection h with h2; subst h2
        exact absurd hmem hno
    | trackEnded =>
        simp only [step] at h; injection h with h2; subst h2
        simp only [stopSharing] at hno
        split at hno
        · rename_i j heq
          exact ⟨mem_closePc
            { s with streamOpen := s.streamOpen.erase j, localStreamRef := none }
            i hmem hno, Or.inr (Or.inr rfl)⟩
        · exact ⟨mem_closePc s i hmem hno, Or.inr (Or.inr rfl)⟩

/-- Witness for the amended C2: the stop-view part and the closure part
applied at the open viewer session. -/
theorem c2_create_does_not_close_witness :
    ((stopViewing sView).st.pcOpen = sView.pcOpen.erase 0 ∧
      (stopViewing sView).st.peerConnectionRef = none) ∧
    (sView.peerConnectionRef = some 0 ∧
      (Event.uiStopView = Event.uiStopShare ∨
        Event.uiStopView = Event.uiStopView ∨
        Event.uiStopView = Event.trackEnded)) :=
  ⟨c2_create_does_not_close.2.1 sView 0 (by decide),
   c2_create_does_not_close.2.2 pAll sView Event.uiStopView
     (stopViewing sView) 0 rfl (by decide) (by decide)⟩

/-- Claim C1 is false on the code: in the reachable viewer state, a relay
`answer` message alone moves the status from `negotiating` to
`media-connected`, with no transport connected report involved. -/
theorem c1_counterexample :
    sView.status = Status.negotiating ∧
    step pAll sView (Event.answerMsg goodAnswerPayload) =
      Except.ok ⟨{ sView with status := Status.mediaConnected }, [],
        ["Received answer"]⟩ ∧
    ¬ (∀ o : StepOut, step pAll sView (Event.answerMsg goodAnswerPayload) =
        Except.ok o → o.st.status ≠ Status.mediaConnected) := by
  refine ⟨by decide, rfl, ?_⟩
  intro hAll
  exact hAll ⟨{ sView with status := Status.mediaConnected }, [],
    ["Received answer"]⟩ rfl rfl

/-- Claim C1 (amended): status becomes `media-connected` from the
transport connected reports (connection state or ICE state `connected`,
or an inbound track on a mounted viewer surface) and additionally from
the relay `answer` handler whenever a transport session exists; the
`offer` and `viewer-joined` handlers (which send an answer or an offer)
never set it, and no other event can newly produce it. -/
theorem c1_media_connected_sources :
    (∀ p s, step p s (Event.connectionStateChange ConnState.connected) =
      Except.ok ⟨{ s with status := Status.mediaConnected }, [], []⟩) ∧
    (∀ p s, step p s (Event.iceConnectionStateChange IceConnState.connected) =
      Except.ok ⟨{ s with status := Status.mediaConnected }, [], []⟩) ∧
    (∀ p s i, s.peerConnectionRef = some i →
      step p s (Event.answerMsg goodAnswerPayload) =
        Except.ok ⟨{ s with status := Status.mediaConnected }, [],
          ["Received answer"]⟩) ∧
    (∀ p s d o, step p s (Event.offerMsg d) = Except.ok o →
      o.st.status = s.status) ∧
    (∀ p s o, step p s Event.viewerJoined = Except.ok o →
      o.st.status = Status.negotiating) ∧
    (∀ p s e o, step p s e = Except.ok o →
      o.st.status = Status.mediaConnected →
      s.status = Status.mediaConnected ∨
      e = Event.connectionStateChange ConnState.connected ∨
      e = Event.iceConnectionStateChange IceConnState.connected ∨
      (∃ b, e = Event.trackEvent b) ∨
      (∃ d, e = Event.answerMsg d)) := by
  refine ⟨fun p s => rfl, fun p s => rfl, ?_, ?_, ?_, ?_⟩
  · intro p s i hi
    simp only [step]
    unfold onAnswer
    simp only [hi]
    rfl
  · intro p s d o h
    simp only [step] at h
    unfold onOffer at h
    split at h
    · injection h with h2; subst h2; rfl
    · split at h
      · exact Except.noConfusion h
      · split at h
        · exact Except.noConfusion h
        · injection h with h2; subst h2; rfl
  · intro p s o h
    simp only [step] at h
    unfold onViewerJoined at h
    split at h
    · injection h with h2; subst h2; rfl
    · injection h with h2; subst h2; rfl
  · intro p s e o h hmc
    cases e with
    | socketConnect =>
        simp only [step] at h; injection h with h2; subst h2
        exact Status.noConfusion hmc
    | socketConnectError b =>
        simp only [step] at h; injection h with h2; subst h2
        unfold onConnectError at hmc
        split at hmc
        · exact Or.inl hmc
        · exact Status.noConfusion hmc
    | socketConnectTimeout =>
        simp only [step] at h; injection h with h2; subst h2
        exact Status.noConfusion hmc
    | reconnectAttempt =>
        simp only [step] at h; injection h with h2; subst h2
        exact Status.noConfusion hmc
    | reconnectError =>
        simp only [step] at h; injection h with h2; subst h2
        exact Or.inl hmc
    | reconnectFailed =>
        simp only [step] at h; injection h with h2; subst h2
        exact Status.noConfusion hmc
    | socketDisconnect =>
        simp only [step] at h; injection h with h2; subst h2
        exact Status.noConfusion hmc
    | socketReconnect =>
        simp only [step] at h; injection h with h2; subst h2
        exact Status.noConfusion hmc
    | roomCreated d =>
        simp only [step] at h
        unfold onRoomCreated at h
        split at h
        · exact Except.noConfusion h
        · injection h with h2; subst h2; exact Or.inl hmc
    | availableCount d =>
        simp only [step] at h; injection h with h2; subst h2
        unfold onAvailableCount at hmc
        split at hmc
        · exact Or.inl hmc
        · exact Or.inl hmc
    | availableRooms d =>
        simp only [step] at h; injection h with h2; subst h2
        unfold onAvailableRooms at hmc
        split at hmc
        · exact Or.inl hmc
        · exact Or.inl hmc
    | viewerJoined =>
        simp only [step] at h; injection h with h2; subst h2
        unfold onViewerJoined at hmc
        split at hmc
        · exact Status.noConfusion hmc
        · exact Status.noConfusion hmc
    | offerMsg d =>
        simp only [step] at h
        unfold onOffer at h
        split at h
        · injection h with h2; subst h2; exact Or.inl hmc
        · split at h
          · exact Except.noConfusion h
          · split at h
            · exact Except.noConfusion h
            · injection h with h2; subst h2; exact Or.inl hmc
    | answerMsg d =>
        exact Or.inr (Or.inr (Or.inr (Or.inr ⟨d, rfl⟩)))
    | iceCandidateMsg d =>
        simp only [step] at h
        unfold onIceCandidateMsg at h
        split at h
        · injection h with h2; subst h2; exact Or.inl hmc
        · split at h
          · exact Except.noConfusion h
          · split at h
            · exact Except.noConfusion h
            · injection h with h2; subst h2; exact Or.inl hmc
    | connectionStateChange c =>
        simp only [step] at h; injection h with h2; subst h2
        cases c with
        | connected => exact Or.inr (Or.inl rfl)
        | connNew => exact Or.inl hmc
        | closed => exact Or.inl hmc
        | connecting => exact Status.noConfusion hmc
        | disconnected => exact Status.noConfusion hmc
        | failed => exact Status.noConfusion hmc
    | iceConnectionStateChange c =>
        simp only [step] at h; injection h with h2; subst h2
        cases c with
        | connected => exact Or.inr (Or.inr (Or.inl rfl))
        | iceNew => exact Or.inl hmc
        | completed => exact Or.inl hmc
        | closed => exact Or.inl hmc
        | checking => exact Status.noConfusion hmc
        | disconnected => exact Status.noConfusion hmc
        | failed => exact Status.noConfusion hmc
    | trackEvent b =>
        exact Or.inr (Or.inr (Or.inr (Or.inl ⟨b, rfl⟩)))
    | iceCandidateFound b =>
        simp only [step] at h; injection h with h2; subst h2
        exact Or.inl hmc
    | negotiationNeeded =>
        simp only [step] at h; injection h with h2; subst h2
        exact Or.inl hmc
    | uiStartShare cap =>
        simp only [step] at h; injection h with h2; subst h2
        unfold startSharing at hmc
        split at hmc
        · exact Or.inl hmc
        · split at hmc
          · exact Or.inl hmc
          · split at hmc
            · exact Or.inl hmc
            · cases cap with
              | granted => exact Status.noConfusion hmc
              | denied => exact Status.noConfusion hmc
    | uiStopShare =>
        simp only [step] at h; injection h with h2; subst h2
        exact Status.noConfusion hmc
    | uiStartView =>
        simp only [step] at h; injection h with h2; subst h2
        unfold startViewing joinSelectedRoom fetchRooms at hmc
        split at hmc
        · exact Status.noConfusion hmc
        · split at hmc
          · exact Status.noConfusion hmc
          · exact Status.noConfusion hmc
    | uiStopView =>
        simp only [step] at h; injection h with h2; subst h2
        exact Status.noConfusion hmc
    | uiRetry =>
        simp only [step] at h; injection h with h2; subst h2
        unfold retrySignaling at hmc
        split at hmc
        · exact Status.noConfusion hmc
        · exact Or.inl hmc
    | uiFetchRooms =>
        simp only [step] at h; injection h with h2; subst h2
        exact Or.inl hmc
    | uiJoinRoom id =>
        simp only [step] at h; injection h with h2; subst h2
        exact Status.noConfusion hmc
    | trackEnded =>
        simp only [step] at h; injection h with h2; subst h2
        exact Status.noConfusion hmc

/-- Witness for the amended C1: each hypothesis-bearing part applied at
the reachable viewer state. -/
theorem c1_media_connected_sources_witness :
    step pAll sView (Event.answerMsg goodAnswerPayload) =
      Except.ok ⟨{ sView with status := Status.mediaConnected }, [],
        ["Received answer"]⟩ ∧
    (⟨sView, [MsgName.answer], ["Received offer"]⟩ : StepOut).st.status =
      sView.status ∧
    (⟨{ sView with status := Status.negotiating }, [MsgName.offer],
        ["Viewer joined"]⟩ : StepOut).st.status = Status.negotiating ∧
    (sView.status = Status.mediaConnected ∨
      Event.answerMsg goodAnswerPayload =
        Event.connectionStateChange ConnState.connected ∨
      Event.answerMsg goodAnswerPayload =
        Event.iceConnectionStateChange IceConnState.connected ∨
      (∃ b, Event.answerMsg goodAnswerPayload = Event.trackEvent b) ∨
      (∃ d, Event.answerMsg goodAnswerPayload = Event.answerMsg d)) :=
  ⟨c1_media_connected_sources.2.2.1 pAll sView 0 (by decide),
   c1_media_connected_sources.2.2.2.1 pAll sView goodOfferPayload
     ⟨sView, [MsgName.answer], ["Received offer"]⟩ rfl,
   c1_media_connected_sources.2.2.2.2.1 pAll sView
     ⟨{ sView with status := Status.negotiating }, [MsgName.offer],
       ["Viewer joined"]⟩ rfl,
   c1_media_connected_sources.2.2.2.2.2 pAll sView
     (Event.answerMsg goodAnswerPayload)
     ⟨{ sView with status := Status.mediaConnected }, [], ["Received answer"]⟩
     rfl rfl⟩

/-- Claim C6 is false on the code: with capture unavailable (insecure
context) and status connected-to-signaling, a Share attempt leaves the
status unchanged — it does not return to `idle`. -/
theorem c6_counterexample :
    step pInsecure sConnIns (Event.uiStartShare CaptureResult.granted) =
      Except.ok ⟨sConnIns, [], ["Use HTTPS or localhost"]⟩ ∧
    sConnIns.status = Status.connectedToSignaling ∧
    ¬ (∀ o : StepOut,
        step pInsecure sConnIns (Event.uiStartShare CaptureResult.granted) =
          Except.ok o → o.st.status = Status.idle) := by
  refine ⟨rfl, by decide, ?_⟩
  intro hAll
  exact absurd (hAll ⟨sConnIns, [], ["Use HTTPS or localhost"]⟩ rfl)
    (by decide)

/-- Claim C6 (amended): when the context is insecure, the frame is not
top level, or the capture API is missing, `startSharing` aborts before
requesting capture with exactly one console report and no relay message,
leaving the whole state (status included) unchanged — in particular it
never passes through `sharing`; the mobile denylist instead blocks the
Share control up front by computing `canShare` false, with no console
report at all. -/
theorem c6_capture_unavailable (p : Platform) (s : AppState)
    (c : CaptureResult)
    (h : p.isSecure = false ∨ p.isTopLevel = false ∨ p.hasAPI = false) :
    (∃ m : String, step p s (Event.uiStartShare c) = Except.ok ⟨s, [], [m]⟩) ∧
    (∀ q : Platform, q.isMobile = true → (initState q).canShare = false) := by
  constructor
  · rcases h with h | h | h
    · exact ⟨"Use HTTPS or localhost", by simp [step, startSharing, h]⟩
    · cases hsec : p.isSecure with
      | false => exact ⟨"Use HTTPS or localhost", by simp [step, startSharing, hsec]⟩
      | true => exact ⟨"Open in a browser tab", by simp [step, startSharing, hsec, h]⟩
    · cases hsec : p.isSecure with
      | false => exact ⟨"Use HTTPS or localhost", by simp [step, startSharing, hsec]⟩
      | true =>
          cases htop : p.isTopLevel with
          | false => exact ⟨"Open in a browser tab", by simp [step, startSharing, hsec, htop]⟩
          | true => exact ⟨"Screen capture API unavailable", by simp [step, startSharing, hsec, htop, h]⟩
  · intro q hq
    simp [initState, hq]

/-- Witness for the amended C6 on the insecure platform. -/
theorem c6_capture_unavailable_witness :
    (∃ m : String,
      step pInsecure (initState pInsecure)
        (Event.uiStartShare CaptureResult.granted) =
        Except.ok ⟨initState pInsecure, [], [m]⟩) ∧
    (∀ q : Platform, q.isMobile = true → (initState q).canShare = false) :=
  c6_capture_unavailable pInsecure (initState pInsecure)
    CaptureResult.granted (Or.inl rfl)

/-- Claim C7 is false on the code: with a live transport session, an
inbound `offer` whose payload is an object without an `offer` field is
not ignored — the handler forwards `undefined` to the transport API,
which raises. -/
theorem c7_counterexample :
    step pAll sView (Event.offerMsg (JsData.obj [])) =
      Except.error ("TypeError") ∧
    ¬ (∃ o : StepOut, step pAll sView (Event.offerMsg (JsData.obj [])) =
        Except.ok o) := by
  refine ⟨rfl, ?_⟩
  rintro ⟨o, ho⟩
  rw [show step pAll sView (Event.offerMsg (JsData.obj [])) =
    Except.error ("TypeError") from rfl] at ho
  exact Except.noConfusion ho

/-- Claim C7 (amended): only the `available-count` and `available-rooms`
handlers guard their payload shape and ignore malformed payloads with
state unchanged; the `offer` and `answer` handlers guard only on the
transport session existing and pass the payload field to the transport
unchecked, raising on a missing field, and the `room-created` handler
reads its field unguarded, raising on a null payload. -/
theorem c7_payload_guards :
    (∀ p s d, isNumField (d.getOpt ("count")) = false →
      step p s (Event.availableCount d) = Except.ok ⟨s, [], []⟩) ∧
    (∀ p s d, isArrField (d.getOpt ("rooms")) = false →
      step p s (Event.availableRooms d) = Except.ok ⟨s, [], []⟩) ∧
    (∀ p s i, s.peerConnectionRef = some i →
      step p s (Event.offerMsg (JsData.obj [])) =
        Except.error ("TypeError")) ∧
    (∀ p s i, s.peerConnectionRef = some i →
      step p s (Event.answerMsg (JsData.obj [])) =
        Except.error ("TypeError")) ∧
    (∀ p s, step p s (Event.roomCreated JsData.null) =
      Except.error ("TypeError")) := by
  refine ⟨?_, ?_, ?_, ?_, ?_⟩
  · intro p s d hd
    simp only [step]
    unfold onAvailableCount
    cases hv : d.getOpt ("count") with
    | num n => rw [hv] at hd; simp [isNumField] at hd
    | null => rfl
    | undefined => rfl
    | str a => rfl
    | arr xs => rfl
    | obj => rfl
  · intro p s d hd
    simp only [step]
    unfold onAvailableRooms
    cases hv : d.getOpt ("rooms") with
    | arr xs => rw [hv] at hd; simp [isArrField] at hd
    | null => rfl
    | undefined => rfl
    | str a => rfl
    | num n => rfl
    | obj => rfl
  · intro p s i hi
    simp only [step]
    unfold onOffer
    simp only [hi]
    rfl
  · intro p s i hi
    simp only [step]
    unfold onAnswer
    simp only [hi]
    rfl
  · intro p s
    simp only [step]
    rfl

/-- Witness for the amended C7: guard behavior at concrete payloads. -/
theorem c7_payload_guards_witness :
    step pAll (initState pAll) (Event.availableCount JsData.null) =
      Except.ok ⟨initState pAll, [], []⟩ ∧
    step pAll (initState pAll) (Event.availableRooms JsData.null) =
      Except.ok ⟨initState pAll, [], []⟩ ∧
    step pAll sView (Event.offerMsg (JsData.obj [])) =
      Except.error ("TypeError") ∧
    step pAll sView (Event.answerMsg (JsData.obj [])) =
      Except.error ("TypeError") :=
  ⟨c7_payload_guards.1 pAll (initState pAll) JsData.null (by decide),
   c7_payload_guards.2.1 pAll (initState pAll) JsData.null (by decide),
   c7_payload_guards.2.2.1 pAll sView 0 (by decide),
   c7_payload_guards.2.2.2.1 pAll sView 0 (by decide)⟩

end ScreenShare
